import Mathlib

/-
Verification of jln2kavita.py: a script converting a JLN epub directory
structure to a Kavita directory structure.  The pure core (regex-based
filename field extraction, path classification, series-title and index
construction) is embedded below; the I/O layer (filesystem, subprocess,
locks) is modelled with explicit state.  ASCII semantics are used for the
case-insensitive and character-class tests, matching all inputs the script
is designed for.
-/

namespace JlnToKavita

/-- Whitespace characters of the regex class backslash-s (ASCII). -/
def isSpaceChar (c : Char) : Bool :=
  c = ' ' || c = '\t' || c = '\n' || c = '\r' || c = '\x0b' || c = '\x0c'

/-- ASCII decimal digit, the regex class backslash-d. -/
def isDigitChar (c : Char) : Bool :=
  '0' ≤ c && c ≤ '9'

/-- ASCII word character, the regex class backslash-w, used by word boundaries. -/
def isWordChar (c : Char) : Bool :=
  ('a' ≤ c && c ≤ 'z') || ('A' ≤ c && c ≤ 'Z') || isDigitChar c || c = '_'

/-- Case-insensitive comparison of an input character `c` against a lowercase
pattern character `l` (re.IGNORECASE over ASCII). -/
def charLowerEq (c l : Char) : Bool :=
  c = l || ('A' ≤ c && c ≤ 'Z' && c.toNat + 32 = l.toNat)

/-- A labeled numeric recognizer of jln2kavita.py: a literal (lowercase)
followed by a separator class repeated, followed by a captured number
with optional fractional part.  `sepWs = true` means the separator class is
whitespace only (the LN pattern); otherwise it is whitespace, dot or dash. -/
structure NumPattern where
  lit : List Char
  sepWs : Bool
deriving Repr, DecidableEq

/-- Separator-class test for a pattern. -/
def sepOk (p : NumPattern) (c : Char) : Bool :=
  if p.sepWs then isSpaceChar c else isSpaceChar c || c = '.' || c = '-'

/-- Match the literal of a pattern case-insensitively at the head of the
input, returning the rest of the input on success. -/
def matchLit : List Char → List Char → Option (List Char)
  | [], s => some s
  | _ :: _, [] => none
  | l :: ls, c :: cs => if charLowerEq c l then matchLit ls cs else none

/-- Consume the (greedy) separator run of a pattern. -/
def dropSeps (p : NumPattern) : List Char → List Char
  | [] => []
  | c :: cs => if sepOk p c then dropSeps p cs else c :: cs

/-- Take the maximal run of digits at the head of the input. -/
def takeDigits : List Char → List Char × List Char
  | [] => ([], [])
  | c :: cs =>
    if isDigitChar c then
      ((c :: (takeDigits cs).1), (takeDigits cs).2)
    else ([], c :: cs)

/-- Match the captured group digits-plus optional dot digits-plus at the head
of the input, returning the captured characters and the rest. -/
def matchNumber (s : List Char) : Option (List Char × List Char) :=
  if (takeDigits s).1 = [] then none
  else
    match (takeDigits s).2 with
    | '.' :: r2 =>
      if (takeDigits r2).1 = [] then some ((takeDigits s).1, (takeDigits s).2)
      else some ((takeDigits s).1 ++ '.' :: (takeDigits r2).1, (takeDigits r2).2)
    | r => some ((takeDigits s).1, r)

/-- Try to match a labeled pattern at this exact position, returning the
captured group (group 1 of the regex). -/
def matchPatAt (p : NumPattern) (s : List Char) : Option String :=
  match matchLit p.lit s with
  | none => none
  | some r =>
    match matchNumber (dropSeps p r) with
    | none => none
    | some (g, _) => some (String.mk g)

/-- Leftmost search of a labeled pattern, as Python re.search: the first
position at which the pattern matches, with the captured group. -/
def searchFrom (p : NumPattern) : List Char → Nat → Option (Nat × String)
  | s, i =>
    match matchPatAt p s with
    | some g => some (i, g)
    | none =>
      match s with
      | [] => none
      | _ :: rest => searchFrom p rest (i + 1)

/-- Search a pattern in a filename, returning start position and group 1. -/
def patternSearch (p : NumPattern) (s : String) : Option (Nat × String) :=
  searchFrom p s.data 0

/-- The four labeled volume recognizers of jln2kavita.py (VOLUME_PATTERNS):
v, vol, volume with separators whitespace, dot or dash, and LN with
whitespace separators only. -/
def VOLUME_PATTERNS : List NumPattern :=
  [⟨['v'], false⟩,
   ⟨['v', 'o', 'l'], false⟩,
   ⟨['v', 'o', 'l', 'u', 'm', 'e'], false⟩,
   ⟨['l', 'n'], true⟩]

/-- The part recognizers of jln2kavita.py (PART_PATTERNS): part and pt. -/
def PART_PATTERNS : List NumPattern :=
  [⟨['p', 'a', 'r', 't'], false⟩,
   ⟨['p', 't'], false⟩]

/-- The side-story recognizers of jln2kavita.py (SIDESTORY_PATTERNS):
ss, extra and special. -/
def SIDESTORY_PATTERNS : List NumPattern :=
  [⟨['s', 's'], false⟩,
   ⟨['e', 'x', 't', 'r', 'a'], false⟩,
   ⟨['s', 'p', 'e', 'c', 'i', 'a', 'l'], false⟩]

/-- First pattern of the list (in priority order) that matches anywhere in
the filename, with its leftmost match. -/
def firstListSearch : List NumPattern → String → Option (Nat × String)
  | [], _ => none
  | p :: ps, s =>
    match patternSearch p s with
    | some r => some r
    | none => firstListSearch ps s

/-- Match the backup volume pattern (word boundary, digits, optional dot
digits, word boundary) at this exact position.  `prevNonWord` records the
left word-boundary condition (start of string or previous char non-word). -/
def matchBackupAt (prevNonWord : Bool) (s : List Char) : Option String :=
  if !prevNonWord then none
  else
    if (takeDigits s).1 = [] then none
    else
      match (takeDigits s).2 with
      | [] => some (String.mk (takeDigits s).1)
      | '.' :: r2 =>
        if (takeDigits r2).1 = [] then some (String.mk (takeDigits s).1)
        else
          match (takeDigits r2).2 with
          | [] => some (String.mk ((takeDigits s).1 ++ '.' :: (takeDigits r2).1))
          | c :: _ =>
            if isWordChar c then some (String.mk (takeDigits s).1)
            else some (String.mk ((takeDigits s).1 ++ '.' :: (takeDigits r2).1))
      | c :: _ =>
        if isWordChar c then none
        else some (String.mk (takeDigits s).1)

/-- Leftmost search of the backup volume pattern. -/
def backupSearchFrom : List Char → Nat → Bool → Option (Nat × String)
  | s, i, prevNW =>
    match matchBackupAt prevNW s with
    | some g => some (i, g)
    | none =>
      match s with
      | [] => none
      | c :: rest => backupSearchFrom rest (i + 1) (!isWordChar c)

/-- Search the backup volume pattern (BACKUP_VOLUME_PATTERN) in a filename;
the whole match (group 0) is returned, as in the IndexError branch of the
source. -/
def backupSearch (s : String) : Option (Nat × String) :=
  backupSearchFrom s.data 0 true

/-- Python truthiness of an optional string: None and the empty string are
falsy. -/
def truthyStr : Option String → Bool
  | none => false
  | some s => !s.isEmpty

/-- True when some pattern of the list has a (leftmost) match starting
strictly before `start`; the inner loops of extract_series_part_number. -/
def hasMatchBefore (pats : List NumPattern) (filename : String) (start : Nat) : Bool :=
  pats.any fun p =>
    match patternSearch p filename with
    | some (vs, _) => decide (vs < start)
    | none => false

/-- True when some pattern of the list has a (leftmost) match starting
strictly after `start`; the inner loops of extract_volume_part_number. -/
def hasMatchAfter (pats : List NumPattern) (filename : String) (start : Nat) : Bool :=
  pats.any fun p =>
    match patternSearch p filename with
    | some (vs, _) => decide (vs > start)
    | none => false

/-- extract_series_part_number of jln2kavita.py: first part pattern that
matches; rejected when a volume or side-story pattern occurs before the
part match's start. -/
def extract_series_part_number (filename : String) : Option String :=
  match firstListSearch PART_PATTERNS filename with
  | none => none
  | some (s, g) =>
    if hasMatchBefore VOLUME_PATTERNS filename s then none
    else if hasMatchBefore SIDESTORY_PATTERNS filename s then none
    else some g

/-- extract_volume_part_number of jln2kavita.py: first part pattern that
matches; rejected when a volume or side-story pattern occurs after the
part match's start. -/
def extract_volume_part_number (filename : String) : Option String :=
  match firstListSearch PART_PATTERNS filename with
  | none => none
  | some (s, g) =>
    if hasMatchAfter VOLUME_PATTERNS filename s then none
    else if hasMatchAfter SIDESTORY_PATTERNS filename s then none
    else some g

/-- extract_volume_number of jln2kavita.py: labeled volume patterns in
order, then side-story patterns, then (only when no series part number was
extracted, by Python truthiness) the first bare decimal number. -/
def extract_volume_number (filename : String) : Option String :=
  match firstListSearch VOLUME_PATTERNS filename with
  | some (_, g) => some g
  | none =>
    match firstListSearch SIDESTORY_PATTERNS filename with
    | some (_, g) => some g
    | none =>
      if truthyStr (extract_series_part_number filename) then none
      else
        match backupSearch filename with
        | some (_, g) => some g
        | none => none

/-- Case-insensitive containment of a lowercase needle at the head of the
haystack. -/
def leadsWithCI : List Char → List Char → Bool
  | [], _ => true
  | _ :: _, [] => false
  | l :: ls, c :: cs => charLowerEq c l && leadsWithCI ls cs

/-- Containment of a lowercase needle anywhere in the haystack, the Python
test needle in haystack.lower() over ASCII. -/
def containsCI (needle : List Char) : List Char → Bool
  | [] => leadsWithCI needle []
  | c :: cs => leadsWithCI needle (c :: cs) || containsCI needle cs

/-- is_side_story_folder of jln2kavita.py: the lowercased path contains
side story or side stories. -/
def is_side_story_folder (p : String) : Bool :=
  containsCI "side story".data p.data || containsCI "side stories".data p.data

/-- is_short_story_folder of jln2kavita.py: the lowercased path contains
short story or short stories. -/
def is_short_story_folder (p : String) : Bool :=
  containsCI "short story".data p.data || containsCI "short stories".data p.data

/-- classify_epub_file_type of jln2kavita.py: a single classification label
chosen by priority from folder-name keywords, or none. -/
def classify_epub_file_type (rel : String) : Option String :=
  if is_side_story_folder rel then some "Side Story"
  else if is_short_story_folder rel then some "Short Story"
  else if containsCI "fan".data rel.data then some "Fan Translation"
  else if containsCI "official".data rel.data then some "Official Translation"
  else none

/-- convert_classification_to_plural of jln2kavita.py: the four known
labels map to their plural; anything else is unchanged. -/
def convert_classification_to_plural (classification : String) : String :=
  if classification = "Side Story" then "Side Stories"
  else if classification = "Short Story" then "Short Stories"
  else if classification = "Fan Translation" then "Fan Translations"
  else if classification = "Official Translation" then "Official Translations"
  else classification

/-- The series and index arguments handed to the ebook-meta subprocess. -/
structure TagCommand where
  title : String
  index : String
deriving Repr, DecidableEq

/-- The pure argument construction of set_epub_series_and_index of
jln2kavita.py: the title gains a Part suffix when the series part number is
truthy; the index is the volume number, with the volume number, a dot and
the volume part number appended when the volume part is truthy (the exact
concatenation of the source), or 1.folder_index when the volume number is
None. -/
def set_epub_series_and_index (series_title : String)
    (series_part_num volume_num volume_part_num : Option String)
    (folder_index : Nat) : TagCommand :=
  { title :=
      if truthyStr series_part_num then
        series_title ++ " Part " ++ series_part_num.getD ""
      else series_title
    index :=
      match volume_num with
      | some v =>
        if truthyStr volume_part_num then
          v ++ (v ++ "." ++ volume_part_num.getD "")
        else v
      | none => "1." ++ toString folder_index }

/-- The final path component, os.path.basename with forward slashes. -/
def basename (p : String) : String :=
  String.mk ((p.data.reverse.takeWhile fun c => c ≠ '/').reverse)

/-- Position of the last dot of a list, pathlib's rfind. -/
def lastDotIdx (l : List Char) : Option Nat :=
  match l with
  | [] => none
  | c :: cs =>
    match lastDotIdx cs with
    | some i => some (i + 1)
    | none => if c = '.' then some 0 else none

/-- pathlib Path.suffix: the trailing extension of the final component,
nonempty only when the last dot is neither first nor last. -/
def path_suffix (p : String) : String :=
  match lastDotIdx (basename p).data with
  | none => ""
  | some i =>
    if 0 < i && i + 1 < (basename p).data.length then
      String.mk ((basename p).data.drop i)
    else ""

/-- pathlib Path.stem: the final component without its suffix. -/
def path_stem (p : String) : String :=
  match lastDotIdx (basename p).data with
  | none => basename p
  | some i =>
    if 0 < i && i + 1 < (basename p).data.length then
      String.mk ((basename p).data.take i)
    else basename p

/-- The pure metadata computation of copy_epub_file of jln2kavita.py:
extract the fields from the basename-like filename, build the series name
(with the dash-joined pluralized classification when truthy) and delegate
to set_epub_series_and_index. -/
def copy_epub_file_tag (folder_index : Nat) (classification : Option String)
    (series_folder_name : String) (epub_filename : String) : TagCommand :=
  set_epub_series_and_index
    (if truthyStr classification then
       series_folder_name ++ " - "
         ++ convert_classification_to_plural (classification.getD "")
     else series_folder_name)
    (extract_series_part_number epub_filename)
    (extract_volume_number epub_filename)
    (extract_volume_part_number epub_filename)
    folder_index

/-- Destination filename built in copy_epub_files of jln2kavita.py: the
stem, plus a dash-joined raw classification when truthy, plus the suffix. -/
def dest_filename (epub_file_path : String) (classification : Option String) : String :=
  (if truthyStr classification then
     path_stem epub_file_path ++ " - " ++ classification.getD ""
   else path_stem epub_file_path) ++ path_suffix epub_file_path

/-- Membership of a path in the set of existing destination paths,
modelling os.path.exists over the produced files. -/
def pathExists : List String → String → Bool
  | [], _ => false
  | q :: rest, p => if q = p then true else pathExists rest p

/-- One recorded invocation of the metadata-tagging collaborator. -/
structure TagInvocation where
  dest : String
  cmd : TagCommand
deriving Repr, DecidableEq

/-- Destination path of one enumerated file within a series. -/
def destPathOf (destFolder : String) (pr : String × Option String) : String :=
  destFolder ++ "/" ++ dest_filename pr.1 pr.2

/-- The per-series loop of copy_epub_files of jln2kavita.py: enumerate the
candidate files; skip a file whose destination path already exists;
otherwise tag and copy it, so its destination path exists afterwards.
Returns the new set of existing paths and the tagging invocations made. -/
def run_series (d sf : String) :
    List (String × Option String) → Nat → List String →
    List String × List TagInvocation
  | [], _, fs => (fs, [])
  | pr :: rest, idx, fs =>
    if pathExists fs (destPathOf d pr) = true then
      run_series d sf rest (idx + 1) fs
    else
      ((run_series d sf rest (idx + 1) (destPathOf d pr :: fs)).1,
       ⟨destPathOf d pr, copy_epub_file_tag idx pr.2 sf (basename pr.1)⟩
         :: (run_series d sf rest (idx + 1) (destPathOf d pr :: fs)).2)

/-- The outer loop of copy_epub_files of jln2kavita.py over the series
folders, threading the set of existing destination paths. -/
def copy_run (dest : String) :
    List (String × List (String × Option String)) → List String →
    List String × List TagInvocation
  | [], fs => (fs, [])
  | e :: rest, fs =>
    ((copy_run dest rest (run_series (dest ++ "/" ++ e.1) e.1 e.2 0 fs).1).1,
     (run_series (dest ++ "/" ++ e.1) e.1 e.2 0 fs).2
       ++ (copy_run dest rest (run_series (dest ++ "/" ++ e.1) e.1 e.2 0 fs).1).2)

/-- A filesystem node kind for the configuration checks. -/
inductive FsNode where
  | file : FsNode
  | dir : FsNode
deriving Repr, DecidableEq

/-- Lookup of a path in the modelled filesystem. -/
def fsLookup : List (String × FsNode) → String → Option FsNode
  | [], _ => none
  | e :: rest, p => if e.1 = p then some e.2 else fsLookup rest p

/-- os.path.isdir over the modelled filesystem. -/
def os_path_isdir (fs : List (String × FsNode)) (p : String) : Bool :=
  fsLookup fs p = some FsNode.dir

/-- The argument validation performed by copy_epub_files of jln2kavita.py:
the only raised configuration error is a source that is not a directory
(os.path.abspath is the identity on the already-absolute paths modelled
here); a missing target is created, and neither an identical source and
target nor a non-directory target is checked. -/
def copy_epub_files_guard (fs : List (String × FsNode))
    (src_dir dest_dir : String) : Option String :=
  if os_path_isdir fs src_dir = false then
    some ("Source directory does not exist: " ++ src_dir)
  else none

/-- The configuration-error path of main of jln2kavita.py: an
ArgumentTypeError raised by the validation is printed and the process exits
with status 1; otherwise the copy proceeds. -/
def main_config_exit (fs : List (String × FsNode)) (src_dir dest_dir : String) : Nat :=
  match copy_epub_files_guard fs src_dir dest_dir with
  | some _ => 1
  | none => 0

/-- Existence of a path in the lock-model filesystem (path paired with its
locked status). -/
def lockfs_exists : List (String × Bool) → String → Bool
  | [], _ => false
  | e :: rest, p => if e.1 = p then true else lockfs_exists rest p

/-- Locked status of an existing path in the lock-model filesystem; the
open-in-append-mode probe of the source succeeds exactly when the entry is
not locked. -/
def lockfs_locked : List (String × Bool) → String → Bool
  | [], _ => false
  | e :: rest, p => if e.1 = p then e.2 else lockfs_locked rest p

/-- is_locked of jln2kavita.py: locked starts as None and is only assigned
True or False inside the os.path.exists branch, so a nonexistent path
yields None. -/
def is_locked (fs : List (String × Bool)) (filepath : String) : Option Bool :=
  if lockfs_exists fs filepath then some (lockfs_locked fs filepath) else none

/-- Python truthiness of an optional boolean: None is falsy. -/
def truthyOptBool : Option Bool → Bool
  | none => false
  | some b => b

/-- Guard of the busy-wait loops while is_locked(path): sleep(2); the loop
body runs at least once exactly when this is true. -/
def busy_wait_spins (fs : List (String × Bool)) (filepath : String) : Bool :=
  truthyOptBool (is_locked fs filepath)

/-- Modelled from the spec (amended for claim C7): the series title is the
series folder name, joined with a dash to the pluralized classification
when the classification is truthy, then given a Part suffix when the
series part number is truthy; no year component exists in the source. -/
def titleSpec (folder : String) (classification : Option String)
    (series_part : Option String) : String :=
  (if truthyStr classification then
     folder ++ " - " ++ convert_classification_to_plural (classification.getD "")
   else folder)
  ++ (if truthyStr series_part then " Part " ++ series_part.getD "" else "")

theorem pathExists_head (p : String) (fs : List String) :
    pathExists (p :: fs) p = true := by
  simp [pathExists]

theorem pathExists_cons (q p : String) (fs : List String)
    (h : pathExists fs p = true) : pathExists (q :: fs) p = true := by
  by_cases hq : q = p <;> simp [pathExists, hq, h]

theorem run_series_grow (d sf : String) (files : List (String × Option String)) :
    ∀ idx fs p, pathExists fs p = true →
      pathExists (run_series d sf files idx fs).1 p = true := by
  induction files with
  | nil => intro idx fs p h; simpa [run_series] using h
  | cons hd rest ih =>
    intro idx fs p h
    cases hex : pathExists fs (destPathOf d hd)
    · simp only [run_series, hex]
      simpa using ih (idx + 1) (destPathOf d hd :: fs) p (pathExists_cons _ _ _ h)
    · simp only [run_series, hex]
      simpa using ih (idx + 1) fs p h

theorem run_series_covers (d sf : String) (files : List (String × Option String)) :
    ∀ idx fs pr, pr ∈ files →
      pathExists (run_series d sf files idx fs).1 (destPathOf d pr) = true := by
  induction files with
  | nil => intro idx fs pr h; cases h
  | cons hd rest ih =>
    intro idx fs pr hmem
    rcases List.mem_cons.mp hmem with heq | htail
    · subst heq
      cases hex : pathExists fs (destPathOf d pr)
      · simp only [run_series, hex]
        simpa using run_series_grow d sf rest (idx + 1) (destPathOf d pr :: fs) _
          (pathExists_head _ _)
      · simp only [run_series, hex]
        simpa using run_series_grow d sf rest (idx + 1) fs _ hex
    · cases hex : pathExists fs (destPathOf d hd)
      · simp only [run_series, hex]
        simpa using ih (idx + 1) (destPathOf d hd :: fs) pr htail
      · simp only [run_series, hex]
        simpa using ih (idx + 1) fs pr htail

theorem run_series_skip (d sf : String) (files : List (String × Option String)) :
    ∀ idx fs, (∀ pr ∈ files, pathExists fs (destPathOf d pr) = true) →
      run_series d sf files idx fs = (fs, []) := by
  induction files with
  | nil => intro idx fs _; simp [run_series]
  | cons hd rest ih =>
    intro idx fs h
    have hhd : pathExists fs (destPathOf d hd) = true := h hd (List.mem_cons_self hd rest)
    simp only [run_series, hhd]
    simpa using ih (idx + 1) fs (fun pr hpr => h pr (List.mem_cons_of_mem hd hpr))

theorem copy_run_grow (dest : String)
    (sl : List (String × List (String × Option String))) :
    ∀ fs p, pathExists fs p = true → pathExists (copy_run dest sl fs).1 p = true := by
  induction sl with
  | nil => intro fs p h; simpa [copy_run] using h
  | cons hd rest ih =>
    intro fs p h
    simp only [copy_run]
    exact ih _ p (run_series_grow _ _ _ _ _ p h)

theorem copy_run_covers (dest : String)
    (sl : List (String × List (String × Option String))) :
    ∀ fs e pr, e ∈ sl → pr ∈ e.2 →
      pathExists (copy_run dest sl fs).1 (destPathOf (dest ++ "/" ++ e.1) pr) = true := by
  induction sl with
  | nil => intro fs e pr h _; cases h
  | cons hd rest ih =>
    intro fs e pr hmem hpr
    rcases List.mem_cons.mp hmem with heq | htail
    · subst heq
      simp only [copy_run]
      exact copy_run_grow dest rest _ _ (run_series_covers _ _ _ _ _ _ hpr)
    · simp only [copy_run]
      exact ih _ e pr htail hpr

theorem copy_run_skip (dest : String)
    (sl : List (String × List (String × Option String))) :
    ∀ fs, (∀ e ∈ sl, ∀ pr ∈ e.2,
        pathExists fs (destPathOf (dest ++ "/" ++ e.1) pr) = true) →
      copy_run dest sl fs = (fs, []) := by
  induction sl with
  | nil => intro fs _; simp [copy_run]
  | cons hd rest ih =>
    intro fs h
    have h1 : run_series (dest ++ "/" ++ hd.1) hd.1 hd.2 0 fs = (fs, []) :=
      run_series_skip _ _ _ _ _ (fun pr hpr => h hd (List.mem_cons_self hd rest) pr hpr)
    have h2 : copy_run dest rest fs = (fs, []) :=
      ih fs (fun e he pr hpr => h e (List.mem_cons_of_mem hd he) pr hpr)
    simp [copy_run, h1, h2]

/-- C1: positional precedence of part numbers.  Whenever the first part
pattern match exists, a volume or side-story match starting strictly before
it forces extract_series_part_number to none, and one starting strictly
after it forces extract_volume_part_number to none; the claim's three
concrete examples hold. -/
theorem claim1_positional_precedence :
    (∀ filename s g, firstListSearch PART_PATTERNS filename = some (s, g) →
      ((∃ p, p ∈ VOLUME_PATTERNS ++ SIDESTORY_PATTERNS ∧
          ∃ vs gv, patternSearch p filename = some (vs, gv) ∧ vs < s) →
        extract_series_part_number filename = none) ∧
      ((∃ p, p ∈ VOLUME_PATTERNS ++ SIDESTORY_PATTERNS ∧
          ∃ vs gv, patternSearch p filename = some (vs, gv) ∧ s < vs) →
        extract_volume_part_number filename = none)) ∧
    extract_series_part_number "Series Part 2.epub" = some "2" ∧
    extract_volume_part_number "Series Vol 1 Part 2.epub" = some "2" ∧
    extract_series_part_number "Series Vol 1 Part 2.epub" = none := by
  refine ⟨?_, by decide, by decide, by decide⟩
  intro filename s g hfirst
  constructor
  · rintro ⟨p, hp, vs, gv, hsearch, hlt⟩
    rcases List.mem_append.mp hp with hv | hss
    · have hb : hasMatchBefore VOLUME_PATTERNS filename s = true :=
        List.any_eq_true.mpr ⟨p, hv, by simp [hsearch, hlt]⟩
      simp [extract_series_part_number, hfirst, hb]
    · have hb : hasMatchBefore SIDESTORY_PATTERNS filename s = true :=
        List.any_eq_true.mpr ⟨p, hss, by simp [hsearch, hlt]⟩
      cases hvol : hasMatchBefore VOLUME_PATTERNS filename s <;>
        simp [extract_series_part_number, hfirst, hb, hvol]
  · rintro ⟨p, hp, vs, gv, hsearch, hlt⟩
    rcases List.mem_append.mp hp with hv | hss
    · have hb : hasMatchAfter VOLUME_PATTERNS filename s = true :=
        List.any_eq_true.mpr ⟨p, hv, by simp [hsearch, hlt]⟩
      simp [extract_volume_part_number, hfirst, hb]
    · have hb : hasMatchAfter SIDESTORY_PATTERNS filename s = true :=
        List.any_eq_true.mpr ⟨p, hss, by simp [hsearch, hlt]⟩
      cases hvol : hasMatchAfter VOLUME_PATTERNS filename s <;>
        simp [extract_volume_part_number, hfirst, hb, hvol]

/-- Witness for C1 at a concrete input: the vol match at position 7 of
Series Vol 1 Part 2.epub precedes the part match at position 13, so the
series part number is rejected. -/
theorem claim1_witness :
    extract_series_part_number "Series Vol 1 Part 2.epub" = none :=
  (claim1_positional_precedence.1 "Series Vol 1 Part 2.epub" 13 "2" (by decide)).1
    ⟨⟨['v', 'o', 'l'], false⟩, by decide, 7, "1", by decide, by decide⟩

/-- C2: bare-number volume fallback.  A labeled volume match wins; else a
side-story match wins; else, when the extracted series part number is
truthy, the bare-number fallback is suppressed and the result is none; the
claim's two concrete examples hold. -/
theorem claim2_bare_number_fallback :
    (∀ filename s g, firstListSearch VOLUME_PATTERNS filename = some (s, g) →
        extract_volume_number filename = some g) ∧
    (∀ filename s g, firstListSearch VOLUME_PATTERNS filename = none →
        firstListSearch SIDESTORY_PATTERNS filename = some (s, g) →
        extract_volume_number filename = some g) ∧
    (∀ filename, firstListSearch VOLUME_PATTERNS filename = none →
        firstListSearch SIDESTORY_PATTERNS filename = none →
        truthyStr (extract_series_part_number filename) = true →
        extract_volume_number filename = none) ∧
    extract_volume_number "Series 5.epub" = some "5" ∧
    extract_volume_number "Series Part 1 - 5.epub" = none := by
  refine ⟨?_, ?_, ?_, by decide, by decide⟩
  · intro f s g h; simp [extract_volume_number, h]
  · intro f s g h1 h2; simp [extract_volume_number, h1, h2]
  · intro f h1 h2 h3; simp [extract_volume_number, h1, h2, h3]

/-- Witness for C2 at a concrete input: the series part 1 of
Series Part 1 - 5.epub suppresses the bare-number fallback. -/
theorem claim2_witness : extract_volume_number "Series Part 1 - 5.epub" = none :=
  claim2_bare_number_fallback.2.2.1 "Series Part 1 - 5.epub"
    (by decide) (by decide) (by decide)

/-- C3: evaluation of the code at the failing input.  With volume 1 and
volume part 2 the source builds the index 11.2 (volume, then volume, dot,
volume part), not the dotted decimal 1.2 the claim states. -/
theorem claim3_index_concatenation :
    (set_epub_series_and_index "Series" none (some "1") (some "2") 0).index = "11.2" ∧
    (copy_epub_file_tag 0 none "Series" "Series Vol 1 Part 2.epub").index = "11.2" ∧
    ("11.2" : String) ≠ "1.2" := by decide

/-- C4: fallback index uniqueness.  When no volume number is extracted the
index is 1 dot folder position, and the positions 0, 1, 2 give the three
distinct indices 1.0, 1.1, 1.2. -/
theorem claim4_fallback_index :
    (∀ title sp vp idx,
        (set_epub_series_and_index title sp none vp idx).index = "1." ++ toString idx) ∧
    (∀ idx cls folder fn, extract_volume_number fn = none →
        (copy_epub_file_tag idx cls folder fn).index = "1." ++ toString idx) ∧
    ("1." ++ toString 0 = "1.0" ∧ "1." ++ toString 1 = "1.1" ∧
      "1." ++ toString 2 = "1.2") ∧
    (("1.0" : String) ≠ "1.1" ∧ ("1.0" : String) ≠ "1.2" ∧ ("1.1" : String) ≠ "1.2") := by
  refine ⟨?_, ?_, by decide, by decide⟩
  · intro title sp vp idx; simp [set_epub_series_and_index]
  · intro idx cls folder fn h; simp [copy_epub_file_tag, set_epub_series_and_index, h]

/-- Witness for C4 at a concrete input: Book.epub has no extractable
volume number, so at folder position 1 it receives index 1.1. -/
theorem claim4_witness :
    (copy_epub_file_tag 1 none "X" "Book.epub").index = "1." ++ toString 1 :=
  claim4_fallback_index.2.1 1 none "X" "Book.epub" (by decide)

/-- Counterexample to C5: the code maps Official Translation to Official
Translations, while the claim says it is returned unchanged. -/
theorem claim5_counterexample :
    convert_classification_to_plural "Official Translation" = "Official Translations" ∧
    ("Official Translations" : String) ≠ "Official Translation" := by decide

/-- C5 amended: convert_classification_to_plural maps each of the four
known classification labels to its plural and returns every other string
unchanged (there is no general trailing Story rule). -/
theorem claim5_pluralization :
    convert_classification_to_plural "Side Story" = "Side Stories" ∧
    convert_classification_to_plural "Short Story" = "Short Stories" ∧
    convert_classification_to_plural "Fan Translation" = "Fan Translations" ∧
    convert_classification_to_plural "Official Translation" = "Official Translations" ∧
    (∀ s : String, s ≠ "Side Story" → s ≠ "Short Story" → s ≠ "Fan Translation" →
      s ≠ "Official Translation" → convert_classification_to_plural s = s) := by
  refine ⟨by decide, by decide, by decide, by decide, ?_⟩
  intro s h1 h2 h3 h4
  simp [convert_classification_to_plural, h1, h2, h3, h4]

/-- Witness for C5 at a concrete input: My Story ends in Story yet is
returned unchanged, since it is none of the four known labels. -/
theorem claim5_witness : convert_classification_to_plural "My Story" = "My Story" :=
  claim5_pluralization.2.2.2.2 "My Story" (by decide) (by decide) (by decide) (by decide)

/-- Counterexample to C6: the classifier returns the single label Side
Story for Official slash Light Novel slash Side Story, not the composite
rendering the claim states. -/
theorem claim6_counterexample :
    classify_epub_file_type "Official/Light Novel/Side Story" = some "Side Story" ∧
    some ("Side Story" : String)
      ≠ some ("Light Novel Side Story Official Translation" : String) := by decide

/-- C6 amended: classification yields a single label by priority (side
story, then short story, then fan, then official, by case-insensitive
substring match), the side-story keyword dominating, and none exactly when
no keyword matches. -/
theorem claim6_single_label :
    classify_epub_file_type "Official/Light Novel/Side Story" = some "Side Story" ∧
    classify_epub_file_type "Misc" = none ∧
    (∀ p, is_side_story_folder p = true →
      classify_epub_file_type p = some "Side Story") ∧
    (∀ p, classify_epub_file_type p = none ↔
      (is_side_story_folder p = false ∧ is_short_story_folder p = false ∧
       containsCI "fan".data p.data = false ∧
       containsCI "official".data p.data = false)) := by
  refine ⟨by decide, by decide, fun p h => by simp [classify_epub_file_type, h],
    fun p => ?_⟩
  cases h1 : is_side_story_folder p <;>
    cases h2 : is_short_story_folder p <;>
      cases h3 : containsCI "fan".data p.data <;>
        cases h4 : containsCI "official".data p.data <;>
          simp [classify_epub_file_type, h1, h2, h3, h4]

/-- Witness for C6 at a concrete input: a folder containing the side story
keyword classifies as Side Story. -/
theorem claim6_witness :
    classify_epub_file_type "EPUB/Side Story" = some "Side Story" :=
  claim6_single_label.2.2.1 "EPUB/Side Story" (by decide)

/-- Counterexample to C7: with classification Side Story the title joins
the pluralized classification with a dash, X - Side Stories, not with the
single space the claim states. -/
theorem claim7_counterexample :
    (copy_epub_file_tag 0 (some "Side Story") "X" "Book.epub").title
      = "X - Side Stories" ∧
    ("X - Side Stories" : String) ≠ "X Side Stories" := by decide

/-- C7 amended: the title written to metadata is the series folder name,
with a dash-joined pluralized classification when the classification is
truthy, then a Part suffix when a series part number is extracted from the
filename; no year component exists in the source. -/
theorem claim7_title_construction :
    ∀ idx cls folder fn,
      (copy_epub_file_tag idx cls folder fn).title
        = titleSpec folder cls (extract_series_part_number fn) := by
  intro idx cls folder fn
  unfold copy_epub_file_tag set_epub_series_and_index titleSpec
  cases h : extract_series_part_number fn with
  | none => simp [truthyStr]
  | some p =>
    by_cases hp : p.isEmpty <;>
      simp [truthyStr, hp, String.append_assoc]

/-- C8: idempotence of the sync.  Running the directory-to-directory copy
a second time from the state produced by the first run performs zero
tagging invocations, because every destination path already exists. -/
theorem claim8_sync_idempotent (dest : String)
    (sl : List (String × List (String × Option String))) (fs : List String) :
    (copy_run dest sl (copy_run dest sl fs).1).2 = [] := by
  have hcov : ∀ e ∈ sl, ∀ pr ∈ e.2,
      pathExists (copy_run dest sl fs).1 (destPathOf (dest ++ "/" ++ e.1) pr) = true :=
    fun e he pr hpr => copy_run_covers dest sl fs e pr he hpr
  rw [copy_run_skip dest sl _ hcov]

/-- Counterexample to C9: with source and target both the existing
directory d, the configuration validation raises nothing and the process
does not exit with a nonzero status, although the claim requires it to. -/
theorem claim9_counterexample :
    main_config_exit [("d", FsNode.dir)] "d" "d" = 0 := by decide

/-- C9 amended: the process exits nonzero with a diagnostic exactly when
the source is missing or not a directory; identical source and target
paths and a non-directory target are not checked by the validation. -/
theorem claim9_validation (fs : List (String × FsNode)) (src_dir dest_dir : String) :
    (os_path_isdir fs src_dir = false → main_config_exit fs src_dir dest_dir = 1) ∧
    (os_path_isdir fs src_dir = true → main_config_exit fs src_dir dest_dir = 0) := by
  constructor <;> intro h <;> simp [main_config_exit, copy_epub_files_guard, h]

/-- Witness for C9 at a concrete input: a missing source path makes the
process exit with status 1. -/
theorem claim9_witness : main_config_exit [] "missing" "t" = 1 :=
  (claim9_validation [] "missing" "t").1 (by decide)

/-- C10: the file-lock probe returns none exactly for nonexistent paths,
some only for existing paths, and the busy-wait guard treats a nonexistent
file as unlocked, so the wait loops terminate immediately. -/
theorem claim10_lock_probe (fs : List (String × Bool)) (p : String) :
    (lockfs_exists fs p = false → is_locked fs p = none) ∧
    (∀ b, is_locked fs p = some b → lockfs_exists fs p = true) ∧
    (lockfs_exists fs p = false → busy_wait_spins fs p = false) := by
  refine ⟨fun h => by simp [is_locked, h], fun b hb => ?_,
    fun h => by simp [busy_wait_spins, is_locked, truthyOptBool, h]⟩
  cases hex : lockfs_exists fs p
  · simp [is_locked, hex] at hb
  · rfl

/-- Witness for C10 at a concrete input: a path absent from an empty
filesystem probes as none and the busy-wait guard is false. -/
theorem claim10_witness :
    is_locked [] "x" = none ∧ busy_wait_spins [] "x" = false :=
  ⟨(claim10_lock_probe [] "x").1 (by decide), (claim10_lock_probe [] "x").2.2 (by decide)⟩

end JlnToKavita
